import Mathlib

/-!
Verification of the self-query retrieval engine
(`app/prototypes/selfquery_llm/selfquery_llm.py`).

The Python source is shallowly embedded below.  Machine floats that the
source only ever builds from integer divisions, `0.03`-steps, `min`/`max`
and the constants `0.0`, `0.2`, `1.0` are modelled as exact rationals.
Strings are modelled over their character lists; the Python regexes
`QUERY_TYPE_RE`, `FORBIDDEN_QUERY_RE` and `TEXT_TOKEN_RE` are compiled by
hand into scanners over the (ASCII) character classes `\s` and `\w` they
use.  Endpoint and LLM effects are passed in as explicit oracles.
-/

namespace SelfQuery

/-- Python `\s` (ASCII range): space, tab, newline, carriage return,
vertical tab, form feed. -/
def isPySpace (c : Char) : Bool :=
  c = ' ' || c = '\t' || c = '\n' || c = '\x0d' || c = '\x0b' || c = '\x0c'

/-- Python `\w` (ASCII range): letters, digits, underscore. -/
def isWordChar (c : Char) : Bool :=
  c.isAlphanum || c = '_'

/-- ASCII lowercasing of a character list (Python `str.lower`). -/
def lowerList (cs : List Char) : List Char :=
  cs.map Char.toLower

/-- ASCII lowercasing of a string as a character list. -/
def pyLower (s : String) : List Char :=
  lowerList s.toList

/-- If `pat` is a prefix of `cs`, return the remainder of `cs`. -/
def matchLit : List Char → List Char → Option (List Char)
  | [], cs => some cs
  | _ :: _, [] => none
  | p :: ps, c :: cs => if p = c then matchLit ps cs else none

/-- Regex word boundary `\b` placed after a word character: holds when the
remaining input is empty or starts with a non-word character. -/
def boundaryAfter : List Char → Bool
  | [] => true
  | c :: _ => !(isWordChar c)

/-- Scan all start positions of the input; `atBoundary` tracks whether the
previous character (if any) was a non-word character, i.e. whether `\b`
holds before a word character at the current position.  Succeeds when the
position matcher `m` fires at a position preceded by a boundary. -/
def scanPositions (m : List Char → Bool) : Bool → List Char → Bool
  | _, [] => false
  | atBoundary, c :: cs => (atBoundary && m (c :: cs)) || scanPositions m (!(isWordChar c)) cs

/-- One keyword alternative of `FORBIDDEN_QUERY_RE` matched at the current
position (pattern already lowercased), including the trailing `\b`. -/
def keywordAt (kw : List Char) (cs : List Char) : Bool :=
  match matchLit kw cs with
  | some rest => boundaryAfter rest
  | none => false

/-- The `VALUES\s*\{\s*<http` alternative of `FORBIDDEN_QUERY_RE` matched at
the current position, including the trailing `\b` after `http`. -/
def valuesHttpAt (cs : List Char) : Bool :=
  match matchLit "values".toList cs with
  | none => false
  | some r1 =>
    match r1.dropWhile isPySpace with
    | '\x7b' :: r2 =>
      match matchLit "<http".toList (r2.dropWhile isPySpace) with
      | some rest => boundaryAfter rest
      | none => false
    | _ => false

/-- The twelve forbidden keywords of `FORBIDDEN_QUERY_RE`, in source order. -/
def forbiddenKeywords : List String :=
  ["INSERT", "DELETE", "DROP", "CLEAR", "CREATE", "LOAD", "COPY", "MOVE",
   "ADD", "SERVICE", "WITH", "USING"]

/-- The whole alternation of `FORBIDDEN_QUERY_RE` at one position. -/
def forbiddenAt (cs : List Char) : Bool :=
  forbiddenKeywords.any (fun kw => keywordAt (lowerList kw.toList) cs) || valuesHttpAt cs

/-- `FORBIDDEN_QUERY_RE.search(query)` as a boolean: the regex is
case-insensitive, so both pattern and subject are lowercased. -/
def forbiddenQuerySearch (query : String) : Bool :=
  scanPositions forbiddenAt true (pyLower query)

/-- Substring test on character lists (Python `needle in hay`). -/
def substrAt : List Char → List Char → Bool
  | needle, [] => needle.isEmpty
  | needle, c :: cs => (matchLit needle (c :: cs)).isSome || substrAt needle cs

/-- The four leading keywords recognised by `QUERY_TYPE_RE`. -/
def queryTypeKeywords : List String := ["SELECT", "ASK", "CONSTRUCT", "DESCRIBE"]

/-- `_query_type`: match `^\s*(SELECT|ASK|CONSTRUCT|DESCRIBE)\b`
case-insensitively and return the keyword uppercased, else `"UNKNOWN"`. -/
def queryType (query : String) : String :=
  let cs := (pyLower query).dropWhile isPySpace
  match queryTypeKeywords.find? (fun kw => keywordAt (lowerList kw.toList) cs) with
  | some kw => kw
  | none => "UNKNOWN"

/-- Engine configuration (the fields the verified components read). -/
structure Config where
  max_query_chars : Nat
  allow_describe : Bool
  max_rows : Nat
  max_triples : Nat
  query_candidates : Nat
deriving DecidableEq, Repr

/-- Lexicographic strict order on character lists by code point
(Python string `<`). -/
def charListLtB : List Char → List Char → Bool
  | [], [] => false
  | [], _ :: _ => true
  | _ :: _, [] => false
  | a :: as, b :: bs =>
    a.toNat < b.toNat || (a.toNat = b.toNat && charListLtB as bs)

/-- Python string `<=` by code points. -/
def strLeB (s t : String) : Bool :=
  s = t || charListLtB s.toList t.toList

/-- Insertion of a string into a sorted list, for Python `sorted`. -/
def insertSorted (s : String) : List String → List String
  | [] => [s]
  | t :: ts => if strLeB s t then s :: t :: ts else t :: insertSorted s ts

/-- Python `sorted` on a list of strings (insertion sort). -/
def sortStrings (l : List String) : List String :=
  l.foldr insertSorted []

/-- The allowed query types of `_validate_query`:
`{"SELECT", "ASK", "CONSTRUCT"}` plus `"DESCRIBE"` when `allow_describe`. -/
def allowedTypes (cfg : Config) : List String :=
  ["SELECT", "ASK", "CONSTRUCT"] ++ (if cfg.allow_describe then ["DESCRIBE"] else [])

/-- The `query_type = query_type or self._query_type(query)` line of
`_validate_query`: use the caller-supplied type when present. -/
def effectiveQueryType (query : String) (qt? : Option String) : String :=
  match qt? with
  | some t => t
  | none => queryType query

/-- `_validate_query(query, query_type=None) -> (bool, reason)`. -/
def validateQuery (cfg : Config) (query : String) (qt? : Option String) :
    Bool × Option String :=
  if query.length > cfg.max_query_chars then
    (false, some ("Query exceeds max_query_chars (" ++ toString cfg.max_query_chars ++ ")"))
  else if effectiveQueryType query qt? ∉ allowedTypes cfg then
    (false, some ("Only " ++ ", ".intercalate (sortStrings (allowedTypes cfg)) ++ " are allowed"))
  else if forbiddenQuerySearch query then
    (false, some "Query contains forbidden operation")
  else if (effectiveQueryType query qt? = "SELECT" || effectiveQueryType query qt? = "CONSTRUCT")
      && !(substrAt "limit".toList (pyLower query)) then
    (false, some "Row/graph returning query must include LIMIT")
  else
    (true, none)

/-- Maximal runs of characters satisfying `p` (the accumulator holds the
current run, reversed); models `re.findall` for a character-class regex. -/
def splitRunsAux (p : Char → Bool) (cur : List Char) : List Char → List (List Char)
  | [] => if cur.isEmpty then [] else [cur.reverse]
  | c :: cs =>
    if p c then splitRunsAux p (c :: cur) cs
    else if cur.isEmpty then splitRunsAux p [] cs
    else cur.reverse :: splitRunsAux p [] cs

/-- `TEXT_TOKEN_RE.findall`: maximal runs of `[a-zA-Z0-9_]+`. -/
def textTokens (cs : List Char) : List String :=
  (splitRunsAux isWordChar [] cs).map String.mk

/-- Python `str.split()` with no separator: whitespace runs split, empties
dropped. -/
def pySplitWs (s : String) : List String :=
  (splitRunsAux (fun c => !(isPySpace c)) [] s.toList).map String.mk

/-- Python `str.strip()`: drop `\s` characters from both ends. -/
def pyStrip (s : String) : String :=
  String.mk (((s.toList.dropWhile isPySpace).reverse.dropWhile isPySpace).reverse)

/-- `_normalize_query`: `" ".join(query.split()).strip().lower()`. -/
def normalizeQuery (query : String) : String :=
  String.mk (lowerList (pyStrip (" ".intercalate (pySplitWs query))).toList)

/-- `_escape_literal`: `raw.replace("\\", "\\\\").replace("'", "\\'")`. -/
def escapeLiteral (raw : String) : String :=
  String.join (raw.toList.map fun c =>
    if c = '\\' then "\\\\"
    else if c = '\x27' then "\\\x27"
    else String.singleton c)

/-- `_fallback_query`: the single substring-match SELECT emitted when the
planner fails on iteration 1. -/
def fallbackQuery (cfg : Config) (user_query : String) : String :=
  let escaped := escapeLiteral user_query
  "SELECT ?s ?p ?o WHERE \x7b ?s ?p ?o . FILTER(CONTAINS(LCASE(STR(?s)), LCASE(\x27"
    ++ escaped ++ "\x27)) || CONTAINS(LCASE(STR(?o)), LCASE(\x27" ++ escaped
    ++ "\x27))) \x7d LIMIT " ++ toString cfg.max_rows

/-- Outcome of the guarded planner LLM call in `generate_sparql_candidates`:
the future timed out, the call raised, or it returned a content string. -/
inductive PlannerOutcome where
  | timeout
  | failure
  | response (content : String)

/-- `generate_sparql_candidates`, with the LLM call replaced by its
`PlannerOutcome` and the pure helper `_extract_queries` (JSON / regex
response parsing) abstracted as the parameter `extract`. -/
def generateSparqlCandidates (cfg : Config) (extract : String → List String)
    (outcome : PlannerOutcome) (user_query : String) (iteration : Nat) : List String :=
  match outcome with
  | .timeout => if iteration = 1 then [fallbackQuery cfg user_query] else []
  | .failure => if iteration = 1 then [fallbackQuery cfg user_query] else []
  | .response content =>
    let parsed := extract content
    if !parsed.isEmpty then parsed.take cfg.query_candidates
    else if iteration = 1 then [fallbackQuery cfg user_query] else []

/-- One retrieved result record (`QueryEvidence` dataclass). -/
structure QueryEvidence where
  query : String
  query_type : String
  preview : String
  score : ℚ
  error : Option String
deriving DecidableEq, Repr

/-- A decoded SPARQL JSON response, restricted to the fields the engine
reads: the ASK `boolean`, `results.bindings` (each row as ordered
`variable ↦ value-text` pairs, the `value.get("value", "")` extraction
already applied), and the injected `_describe_score`. -/
structure JsonPayload where
  boolean : Option Bool
  bindings : List (List (String × String))
  describe_score : Option ℚ
deriving DecidableEq

/-- Lower-case hexadecimal digit. -/
def hexDigitChar (n : Nat) : Char :=
  if n < 10 then Char.ofNat (48 + n) else Char.ofNat (87 + n)

/-- One character under `json.dumps` (with `ensure_ascii=False`). -/
def jsonEscapeChar (c : Char) : String :=
  if c = '"' then "\\\""
  else if c = '\\' then "\\\\"
  else if c = '\n' then "\\n"
  else if c = '\t' then "\\t"
  else if c = '\x0d' then "\\r"
  else if c = '\x08' then "\\b"
  else if c = '\x0c' then "\\f"
  else if c.toNat < 32 then
    String.mk ['\\', 'u', '0', '0', hexDigitChar (c.toNat / 16), hexDigitChar (c.toNat % 16)]
  else String.singleton c

/-- A JSON string literal as `json.dumps` renders it. -/
def jsonQuote (s : String) : String :=
  "\"" ++ String.join (s.toList.map jsonEscapeChar) ++ "\""

/-- `json.dumps` of one compact row (a string-to-string dict), default
separators. -/
def jsonDumpsRow (row : List (String × String)) : String :=
  "\x7b" ++ ", ".intercalate (row.map fun kv => jsonQuote kv.1 ++ ": " ++ jsonQuote kv.2) ++ "\x7d"

/-- Size of the intersection of the user-question token set with the token
set of one text (`len(query_tokens.intersection(tokenized))`). -/
def countHits (queryTokens : List String) (text : List Char) : Nat :=
  (((textTokens text).dedup).filter (fun t => t ∈ queryTokens)).length

/-- `_score_json_payload`. -/
def scoreJsonPayload (cfg : Config) (payload : JsonPayload) (user_query : String) :
    String × ℚ :=
  let queryTokens := (textTokens (pyLower user_query)).dedup
  let bindings := payload.bindings
  if bindings.isEmpty && payload.boolean.isSome then
    let b := payload.boolean.getD false
    ("ASK result: " ++ (if b then "True" else "False"), if b then 1 else 1 / 5)
  else
    let rows := bindings.take cfg.max_rows
    let lines := rows.map jsonDumpsRow
    let lexicalHits : Nat := (rows.map (fun row =>
      (row.map (fun kv => countHits queryTokens (pyLower kv.2))).sum)).sum
    let preview := if lines.isEmpty then "No rows returned" else "\n".intercalate lines
    let score : ℚ :=
      min 1 ((lines.length : ℚ) / ((max 1 cfg.max_rows : Nat) : ℚ) + (lexicalHits : ℚ) * (3 / 100))
    let score :=
      match payload.describe_score with
      | some d => max score d
      | none => score
    (preview, score)

/-- Python `str.splitlines` (the `\n`, `\r\n`, `\r` terminators). -/
def pySplitlinesAux (cur : List Char) : List Char → List (List Char)
  | [] => if cur.isEmpty then [] else [cur.reverse]
  | '\x0d' :: '\n' :: cs => cur.reverse :: pySplitlinesAux [] cs
  | '\x0d' :: cs => cur.reverse :: pySplitlinesAux [] cs
  | '\n' :: cs => cur.reverse :: pySplitlinesAux [] cs
  | c :: cs => pySplitlinesAux (c :: cur) cs

/-- Python `str.splitlines` on a string. -/
def pySplitlines (s : String) : List String :=
  (pySplitlinesAux [] s.toList).map String.mk

/-- `_score_construct_payload`. -/
def scoreConstructPayload (cfg : Config) (turtle_payload user_query : String) :
    String × ℚ :=
  let queryTokens := (textTokens (pyLower user_query)).dedup
  let stripped := (pySplitlines turtle_payload).map pyStrip
  let lines :=
    (stripped.filter (fun l =>
      !(l.toList.isEmpty) && !((matchLit "@prefix".toList l.toList).isSome))).take cfg.max_triples
  let lexicalHits : Nat := (lines.map (fun line => countHits queryTokens (pyLower line))).sum
  let preview := if lines.isEmpty then "No triples returned" else "\n".intercalate lines
  (preview,
   min 1 ((lines.length : ℚ) / ((max 1 cfg.max_triples : Nat) : ℚ) + (lexicalHits : ℚ) * (3 / 100)))

/-- `_run_raw_json`, with the endpoint (including its retry over alternate
hosts) abstracted as two oracles: `jsonEp` for JSON-format requests and
`ttlEp` for Turtle-format requests; a raised exception is an `.error`.
For `DESCRIBE` queries the driver requests Turtle and synthesises a
JSON-shaped payload carrying `_describe_score`. -/
def runRawJson (cfg : Config) (jsonEp : String → Except String JsonPayload)
    (ttlEp : String → Except String String) (query : String) :
    Except String JsonPayload :=
  if queryType query = "DESCRIBE" then
    match ttlEp query with
    | .error e => .error e
    | .ok turtle =>
      let ps := scoreConstructPayload cfg turtle ""
      .ok { boolean := none, bindings := [[("describe", ps.1)]], describe_score := some ps.2 }
  else jsonEp query

/-- One loop body of `execute_sparql_batch`: the produced evidence record
together with the list of queries sent to the endpoint (empty when the
candidate is rejected by the validator, a singleton once the `try` block
issues the request). -/
def executeCandidate (cfg : Config) (jsonEp : String → Except String JsonPayload)
    (ttlEp : String → Except String String) (user_query : String) (query : String) :
    QueryEvidence × List String :=
  if (validateQuery cfg query (some (queryType query))).1 = false then
    (⟨query, queryType query, "", 0, (validateQuery cfg query (some (queryType query))).2⟩, [])
  else if queryType query = "SELECT" ∨ queryType query = "ASK" ∨ queryType query = "DESCRIBE" then
    match runRawJson cfg jsonEp ttlEp query with
    | .error e => (⟨query, queryType query, "", 0, some e⟩, [query])
    | .ok payload =>
      (⟨query, queryType query, (scoreJsonPayload cfg payload user_query).1,
        (scoreJsonPayload cfg payload user_query).2, none⟩, [query])
  else
    match ttlEp query with
    | .error e => (⟨query, queryType query, "", 0, some e⟩, [query])
    | .ok turtle =>
      (⟨query, queryType query, (scoreConstructPayload cfg turtle user_query).1,
        (scoreConstructPayload cfg turtle user_query).2, none⟩, [query])

/-- `execute_sparql_batch`, instrumented with the trace of queries actually
sent to the endpoint. -/
def executeSparqlBatchTrace (cfg : Config) (jsonEp : String → Except String JsonPayload)
    (ttlEp : String → Except String String) (candidates : List String) (user_query : String) :
    List QueryEvidence × List String :=
  match candidates with
  | [] => ([], [])
  | q :: rest =>
    let r := executeCandidate cfg jsonEp ttlEp user_query q
    let rr := executeSparqlBatchTrace cfg jsonEp ttlEp rest user_query
    (r.1 :: rr.1, r.2 ++ rr.2)

/-- `execute_sparql_batch`: the evidence list it returns. -/
def executeSparqlBatch (cfg : Config) (jsonEp : String → Except String JsonPayload)
    (ttlEp : String → Except String String) (candidates : List String) (user_query : String) :
    List QueryEvidence :=
  (executeSparqlBatchTrace cfg jsonEp ttlEp candidates user_query).1

/-- The shared body of the two deduplication loops of
`_plan_iteration_candidates`: the accumulator is `(merged, seen_queries)`;
a candidate whose normalized form is already in the seen set is skipped,
otherwise its normalized form is added to the seen set and the candidate
itself is appended to `merged`. -/
def dedupStep (acc : List String × List String) (query : String) :
    List String × List String :=
  if normalizeQuery query ∈ acc.2 then acc
  else (acc.1 ++ [query], normalizeQuery query :: acc.2)

/-- The merging part of `_plan_iteration_candidates`: fold the planner
candidates, then the lexical candidates, through `dedupStep`; returns the
new `merged` list and the grown seen set. -/
def planIterationCandidates (seen : List String) (planner lexical : List String) :
    List String × List String :=
  let acc := planner.foldl dedupStep ([], seen)
  lexical.foldl dedupStep acc

/-- The candidate lists one iteration of `process` receives: the planner
output and the lexical-generator output. -/
structure IterInput where
  planner : List String
  lexical : List String

/-- The candidate flow of the `process` loop: each round merges its
planner and lexical candidates against the seen set and executes the
merged batch; an empty merge breaks the loop (`no_new_candidates`).  The
time-budget and early-stop breaks only truncate this sequence of batches,
so the returned list covers every batch that is ever executed. -/
def processCandidates (seen : List String) : List IterInput → List (List String)
  | [] => []
  | it :: rest =>
    let mr := planIterationCandidates seen it.planner it.lexical
    if mr.1.isEmpty then []
    else mr.1 :: processCandidates mr.2 rest

/-- `_run_select`'s row extraction: up to `max_rows` bindings (each row is
already modelled as its `variable ↦ value-text` pairs). -/
def runSelectRows (cfg : Config) (payload : JsonPayload) : List (List (String × String)) :=
  payload.bindings.take cfg.max_rows

/-- `json.dumps` of a list of rows. -/
def jsonDumpsRows (rows : List (List (String × String))) : String :=
  "[" ++ ", ".intercalate (rows.map jsonDumpsRow) ++ "]"

/-- `json.dumps({"classes": classes, "properties": properties})`. -/
def metadataJson (classes properties : List (List (String × String))) : String :=
  "\x7b\"classes\": " ++ jsonDumpsRows classes ++ ", \"properties\": "
    ++ jsonDumpsRows properties ++ "\x7d"

/-- `json.dumps({"classes": [], "properties": [], "warning": w})`, the
metadata `_load_schema_context` synthesizes when the fetch raises. -/
def schemaWarningJson (w : String) : String :=
  "\x7b\"classes\": [], \"properties\": [], \"warning\": " ++ jsonQuote w ++ "\x7d"

/-- `get_schema_metadata`, as a transition on the engine's
`_schema_metadata_cache` field.  The two schema SELECTs are oracles
(`Except` models a raised exception); on a cache hit the cached string is
returned and the cache is unchanged; a raised exception propagates before
the cache is written. -/
def getSchemaMetadata (cfg : Config) (classesFetch propertiesFetch : Except String JsonPayload)
    (cache : Option String) : Except String (String × Option String) :=
  match cache with
  | some s => .ok (s, some s)
  | none =>
    match classesFetch with
    | .error e => .error e
    | .ok cp =>
      match propertiesFetch with
      | .error e => .error e
      | .ok pp =>
        let s := metadataJson (runSelectRows cfg cp) (runSelectRows cfg pp)
        .ok (s, some s)

/-- The metadata part of `_load_schema_context`: call `get_schema_metadata`
and, when it raises, substitute the warning JSON without touching the
cache. -/
def loadSchemaMetadata (cfg : Config) (classesFetch propertiesFetch : Except String JsonPayload)
    (cache : Option String) : String × Option String :=
  match getSchemaMetadata cfg classesFetch propertiesFetch cache with
  | .ok r => r
  | .error e => (schemaWarningJson e, cache)

/-- Spec-side reading, for the refinement claim about the validator: a
case-insensitive, word-bounded occurrence of the literal text `pat`
somewhere in `q`. -/
def wordBoundedOccurs (pat : String) (q : String) : Bool :=
  scanPositions (keywordAt (lowerList pat.toList)) true (pyLower q)

/-- Spec-side reading of the validator's rule 3, as the claim words it:
no word-bounded forbidden keyword and no occurrence of the literal
fragment `VALUES \x7b <http`. -/
def specForbidden (q : String) : Bool :=
  (forbiddenKeywords.any fun w => wordBoundedOccurs w q)
    || wordBoundedOccurs "VALUES \x7b <http" q

/-- The `VALUES`-with-arbitrary-whitespace pattern of the source regex as a
standalone occurrence test. -/
def valuesHttpOccurs (q : String) : Bool :=
  scanPositions valuesHttpAt true (pyLower q)

/-- Amended spec-side reading of rule 3: the fragment test uses the source
regex's `VALUES\s*\{\s*<http` (arbitrary whitespace), not the one-space
literal. -/
def specForbiddenAmended (q : String) : Bool :=
  (forbiddenKeywords.any fun w => wordBoundedOccurs w q) || valuesHttpOccurs q

/-- The validator acceptance condition as the claim words it: the
conjunction of the four rules (length cap, allowed leading keyword,
no forbidden content, mandatory `limit` for row/graph queries). -/
def specAccepts (cfg : Config) (q : String) : Bool :=
  decide (q.length ≤ cfg.max_query_chars)
    && decide (queryType q ∈ allowedTypes cfg)
    && !(specForbidden q)
    && (!(decide (queryType q = "SELECT") || decide (queryType q = "CONSTRUCT"))
        || substrAt "limit".toList (pyLower q))

/-- `specAccepts` with rule 3 amended to the source regex's whitespace
handling. -/
def specAcceptsAmended (cfg : Config) (q : String) : Bool :=
  decide (q.length ≤ cfg.max_query_chars)
    && decide (queryType q ∈ allowedTypes cfg)
    && !(specForbiddenAmended q)
    && (!(decide (queryType q = "SELECT") || decide (queryType q = "CONSTRUCT"))
        || substrAt "limit".toList (pyLower q))

/-- A typical engine configuration (the `__init__` clamps give
`max_query_chars ≥ 256`); used for concrete instantiations. -/
def cfgDefault : Config := ⟨256, false, 50, 50, 3⟩

/-- An endpoint oracle whose every JSON request raises. -/
def jsonEpDown : String → Except String JsonPayload := fun _ => .error "endpoint down"

/-- An endpoint oracle whose every Turtle request raises. -/
def ttlEpDown : String → Except String String := fun _ => .error "endpoint down"

example :
    planIterationCandidates [] ["SELECT a", "select  a"] ["SELECT b"] =
      (["SELECT a", "SELECT b"], ["select b", "select a"]) := by decide
example :
    processCandidates [] [⟨["A"], []⟩, ⟨["a"], ["B"]⟩, ⟨[], []⟩] = [["A"], ["B"]] := by decide
example :
    loadSchemaMetadata ⟨256, false, 50, 50, 3⟩ (.error "boom") (.ok ⟨none, [], none⟩) none =
      ("\x7b\"classes\": [], \"properties\": [], \"warning\": \"boom\"\x7d", none) := by decide
example :
    loadSchemaMetadata ⟨256, false, 50, 50, 3⟩ (.ok ⟨none, [], none⟩) (.ok ⟨none, [], none⟩) none =
      ("\x7b\"classes\": [], \"properties\": []\x7d",
       some "\x7b\"classes\": [], \"properties\": []\x7d") := by decide

example : scoreJsonPayload ⟨256, false, 50, 50, 3⟩ ⟨some true, [], none⟩ "" =
    ("ASK result: True", 1) := by decide
example : scoreJsonPayload ⟨256, false, 50, 50, 3⟩ ⟨some false, [], none⟩ "q" =
    ("ASK result: False", 1 / 5) := rfl
example : scoreJsonPayload ⟨256, false, 50, 50, 3⟩ ⟨some true, [[("s", "x")]], none⟩ "" =
    ("\x7b\"s\": \"x\"\x7d", min 1 ((1 : ℚ) / (50 : ℚ) + (0 : ℚ) * (3 / 100))) := by
  with_unfolding_all rfl
example : scoreConstructPayload ⟨256, false, 50, 2, 3⟩ "@prefix p: <u> .\n<a> <b> <c> .\n\n" "" =
    ("<a> <b> <c> .", min 1 ((1 : ℚ) / (2 : ℚ) + (0 : ℚ) * (3 / 100))) := rfl

example : normalizeQuery "  SELECT ?s   WHERE \x7b?s ?p ?o\x7d  " =
    "select ?s where \x7b?s ?p ?o\x7d" := by decide
example : escapeLiteral "a\x27b\\c" = "a\\\x27b\\\\c" := by decide
example : fallbackQuery ⟨256, false, 50, 50, 3⟩ "cats" =
    "SELECT ?s ?p ?o WHERE \x7b ?s ?p ?o . FILTER(CONTAINS(LCASE(STR(?s)), LCASE(\x27cats\x27)) || CONTAINS(LCASE(STR(?o)), LCASE(\x27cats\x27))) \x7d LIMIT 50" := by decide
example : textTokens (pyLower "Who are you_2?") = ["who", "are", "you_2"] := by decide

example : queryType "  select ?s where \x7b ?s ?p ?o \x7d" = "SELECT" := by decide
example : queryType "SELECTX" = "UNKNOWN" := by decide
example : forbiddenQuerySearch "ask \x7b ?s <http://a> ?o \x7d" = false := by decide
example : forbiddenQuerySearch "SELECT ?s WHERE \x7b VALUES \x7b<http://a>\x7d \x7d LIMIT 5" = true := by decide
example :
    validateQuery ⟨256, false, 50, 50, 3⟩ "DESCRIBE <http://e.org/x>" none =
      (false, some "Only ASK, CONSTRUCT, SELECT are allowed") := by decide
example :
    validateQuery ⟨256, false, 50, 50, 3⟩ "SELECT ?s WHERE \x7b ?s ?p ?o \x7d LIMIT 5" none =
      (true, none) := by decide
example :
    (validateQuery ⟨256, false, 50, 50, 3⟩ "SELECT ?s WHERE \x7b ?s ?p ?o \x7d" none).2 =
      some "Row/graph returning query must include LIMIT" := by decide

theorem scanPositions_false (b : Bool) (l : List Char) :
    scanPositions (fun _ => false) b l = false := by
  induction l generalizing b with
  | nil => rfl
  | cons c cs ih => simp [scanPositions, ih]

theorem scanPositions_or (m₁ m₂ : List Char → Bool) (b : Bool) (l : List Char) :
    scanPositions (fun cs => m₁ cs || m₂ cs) b l
      = (scanPositions m₁ b l || scanPositions m₂ b l) := by
  induction l generalizing b with
  | nil => rfl
  | cons c cs ih =>
    simp only [scanPositions, ih, Bool.and_or_distrib_left]
    cases b && m₁ (c :: cs) <;> cases b && m₂ (c :: cs) <;>
      cases scanPositions m₁ (!isWordChar c) cs <;>
      cases scanPositions m₂ (!isWordChar c) cs <;> rfl

theorem scanPositions_any (pats : List String) (f : String → List Char → Bool)
    (b : Bool) (l : List Char) :
    scanPositions (fun cs => pats.any fun p => f p cs) b l
      = pats.any fun p => scanPositions (f p) b l := by
  induction pats with
  | nil => simpa using scanPositions_false b l
  | cons p ps ih =>
    have h := scanPositions_or (f p) (fun cs => ps.any fun x => f x cs) b l
    simp only [List.any_cons]
    rw [← ih, ← h]

theorem forbiddenQuerySearch_eq_spec (q : String) :
    forbiddenQuerySearch q = specForbiddenAmended q := by
  show scanPositions
      (fun cs => (forbiddenKeywords.any fun kw => keywordAt (lowerList kw.toList) cs)
        || valuesHttpAt cs) true (pyLower q) = _
  rw [scanPositions_or, scanPositions_any]
  rfl

/-- Claim C1, counterexample: this query satisfies all four rules as the
claim words them — in particular it does not contain the literal fragment
`VALUES \x7b <http` (there is no space between the brace and `<http`) —
yet the validator rejects it, because `FORBIDDEN_QUERY_RE` allows
arbitrary whitespace (`VALUES\s*\{\s*<http`). -/
theorem C1_counterexample :
    specAccepts cfgDefault
        "SELECT ?s WHERE \x7b VALUES \x7b<http://a>\x7d ?s ?p ?o \x7d LIMIT 5" = true
    ∧ (validateQuery cfgDefault
        "SELECT ?s WHERE \x7b VALUES \x7b<http://a>\x7d ?s ?p ?o \x7d LIMIT 5" none).1 = false := by
  decide

/-- Claim C1 (amended): the validator accepts a query iff all four rules
hold, where rule 3's fragment test is the source regex's
`VALUES\s*\{\s*<http` (arbitrary, possibly empty, whitespace around the
brace) rather than the one-space literal `VALUES \x7b <http`; this holds
for every query string and every configuration. -/
theorem C1_validator_accepts_iff_rules (cfg : Config) (q : String) :
    (validateQuery cfg q none).1 = specAcceptsAmended cfg q := by
  have hf := forbiddenQuerySearch_eq_spec q
  by_cases h1 : q.length > cfg.max_query_chars
  · simp [validateQuery, effectiveQueryType, specAcceptsAmended, h1, Nat.not_le.mpr h1]
  · have h1' : q.length ≤ cfg.max_query_chars := Nat.le_of_not_lt h1
    by_cases h2 : queryType q ∈ allowedTypes cfg
    · by_cases h3 : forbiddenQuerySearch q
      · simp [validateQuery, effectiveQueryType, specAcceptsAmended, h1, h1', h2, h3, ← hf]
      · by_cases h4 : substrAt ['l', 'i', 'm', 'i', 't'] (pyLower q)
        · simp [validateQuery, effectiveQueryType, specAcceptsAmended, h1, h1', h2, h3, h4, ← hf]
        · by_cases h5 : queryType q = "SELECT"
          · simp [validateQuery, effectiveQueryType, specAcceptsAmended, allowedTypes, h1, h1', h2, h3, h4, h5, ← hf]
          · by_cases h6 : queryType q = "CONSTRUCT"
            · simp [validateQuery, effectiveQueryType, specAcceptsAmended, allowedTypes, h1, h1', h2, h3, h4, h5, h6,
                ← hf]
            · simp [validateQuery, effectiveQueryType, specAcceptsAmended, h1, h1', h2, h3, h4, h5, h6, ← hf]
    · simp [validateQuery, effectiveQueryType, specAcceptsAmended, h1, h1', h2]

theorem validateQuery_safe_shape (cfg : Config) (q : String) (t : Option String)
    (h : (validateQuery cfg q t).1 = true) : validateQuery cfg q t = (true, none) := by
  revert h
  by_cases h1 : q.length > cfg.max_query_chars
  · simp [validateQuery, h1]
  · by_cases h2 : effectiveQueryType q t ∈ allowedTypes cfg
    · by_cases h3 : forbiddenQuerySearch q
      · simp [validateQuery, h1, h2, h3]
      · by_cases h4 : substrAt ['l', 'i', 'm', 'i', 't'] (pyLower q)
        · simp [validateQuery, h1, h2, h3, h4]
        · by_cases h5 : effectiveQueryType q t = "SELECT"
          · simp [validateQuery, allowedTypes, h1, h2, h3, h4, h5]
          · by_cases h6 : effectiveQueryType q t = "CONSTRUCT"
            · simp [validateQuery, allowedTypes, h1, h2, h3, h4, h5, h6]
            · simp [validateQuery, h1, h2, h3, h4, h5, h6]
    · simp [validateQuery, h1, h2]

theorem validateQuery_fail_of_reason (cfg : Config) (q : String) (t : Option String)
    (r : String) (h : (validateQuery cfg q t).2 = some r) :
    (validateQuery cfg q t).1 = false := by
  revert h
  by_cases h1 : q.length > cfg.max_query_chars
  · simp [validateQuery, h1]
  · by_cases h2 : effectiveQueryType q t ∈ allowedTypes cfg
    · by_cases h3 : forbiddenQuerySearch q
      · simp [validateQuery, h1, h2, h3]
      · by_cases h4 : substrAt ['l', 'i', 'm', 'i', 't'] (pyLower q)
        · simp [validateQuery, h1, h2, h3, h4]
        · by_cases h5 : effectiveQueryType q t = "SELECT"
          · simp [validateQuery, allowedTypes, h1, h2, h3, h4, h5]
          · by_cases h6 : effectiveQueryType q t = "CONSTRUCT"
            · simp [validateQuery, allowedTypes, h1, h2, h3, h4, h5, h6]
            · simp [validateQuery, h1, h2, h3, h4, h5, h6]
    · simp [validateQuery, h1, h2]

theorem executeCandidate_query (cfg : Config) (jsonEp : String → Except String JsonPayload)
    (ttlEp : String → Except String String) (uq q : String) :
    (executeCandidate cfg jsonEp ttlEp uq q).1.query = q := by
  unfold executeCandidate
  split
  · rfl
  · split
    · split <;> rfl
    · split <;> rfl

theorem executeCandidate_rejected (cfg : Config) (jsonEp : String → Except String JsonPayload)
    (ttlEp : String → Except String String) (uq q : String)
    (h : (validateQuery cfg q (some (queryType q))).1 = false) :
    executeCandidate cfg jsonEp ttlEp uq q =
      (⟨q, queryType q, "", 0, (validateQuery cfg q (some (queryType q))).2⟩, []) := by
  unfold executeCandidate
  rw [if_pos h]

theorem executeCandidate_trace_valid (cfg : Config) (jsonEp : String → Except String JsonPayload)
    (ttlEp : String → Except String String) (uq q : String) :
    ∀ p ∈ (executeCandidate cfg jsonEp ttlEp uq q).2,
      p = q ∧ validateQuery cfg q (some (queryType q)) = (true, none) := by
  intro p hp
  by_cases hv : (validateQuery cfg q (some (queryType q))).1 = false
  · rw [executeCandidate_rejected cfg jsonEp ttlEp uq q hv] at hp
    simp at hp
  · have hv' : (validateQuery cfg q (some (queryType q))).1 = true := by simpa using hv
    refine ⟨?_, validateQuery_safe_shape cfg q (some (queryType q)) hv'⟩
    unfold executeCandidate at hp
    rw [if_neg hv] at hp
    revert hp
    split
    · split <;> simp
    · split <;> simp

theorem executeCandidate_error_inv (cfg : Config) (jsonEp : String → Except String JsonPayload)
    (ttlEp : String → Except String String) (uq q : String)
    (h : (executeCandidate cfg jsonEp ttlEp uq q).1.error ≠ none) :
    (executeCandidate cfg jsonEp ttlEp uq q).1.score = 0
      ∧ (executeCandidate cfg jsonEp ttlEp uq q).1.preview = "" := by
  unfold executeCandidate at h ⊢
  revert h
  split
  · intro _; exact ⟨rfl, rfl⟩
  · split
    · split <;> simp
    · split <;> simp

theorem executeSparqlBatchTrace_map_query (cfg : Config)
    (jsonEp : String → Except String JsonPayload) (ttlEp : String → Except String String)
    (cands : List String) (uq : String) :
    (executeSparqlBatchTrace cfg jsonEp ttlEp cands uq).1.map QueryEvidence.query = cands := by
  induction cands with
  | nil => rfl
  | cons q rest ih =>
    simp [executeSparqlBatchTrace, executeCandidate_query, ih]

theorem executeSparqlBatchTrace_trace_valid (cfg : Config)
    (jsonEp : String → Except String JsonPayload) (ttlEp : String → Except String String)
    (cands : List String) (uq : String) :
    ∀ p ∈ (executeSparqlBatchTrace cfg jsonEp ttlEp cands uq).2,
      validateQuery cfg p (some (queryType p)) = (true, none) := by
  induction cands with
  | nil => intro p hp; simp [executeSparqlBatchTrace] at hp
  | cons q rest ih =>
    intro p hp
    simp only [executeSparqlBatchTrace, List.mem_append] at hp
    rcases hp with hp | hp
    · obtain ⟨hpq, hval⟩ := executeCandidate_trace_valid cfg jsonEp ttlEp uq q p hp
      rw [hpq]; exact hval
    · exact ih p hp

theorem executeSparqlBatchTrace_mem_rejected (cfg : Config)
    (jsonEp : String → Except String JsonPayload) (ttlEp : String → Except String String)
    (cands : List String) (uq : String) :
    ∀ q ∈ cands, (validateQuery cfg q (some (queryType q))).1 = false →
      (⟨q, queryType q, "", 0, (validateQuery cfg q (some (queryType q))).2⟩ : QueryEvidence)
        ∈ (executeSparqlBatchTrace cfg jsonEp ttlEp cands uq).1 := by
  induction cands with
  | nil => intro q hq; simp at hq
  | cons c rest ih =>
    intro q hq hfail
    simp only [executeSparqlBatchTrace, List.mem_cons]
    rcases List.mem_cons.1 hq with hq | hq
    · subst hq
      left
      rw [executeCandidate_rejected cfg jsonEp ttlEp uq q hfail]
    · right
      exact ih q hq hfail

/-- Claim C10: `execute_sparql_batch` returns one evidence record per input
candidate, in order, with the i-th record's `query` field equal to the
i-th candidate — equivalently, mapping the `query` projection over the
output recovers the input list, and lengths agree. -/
theorem C10_batch_preserves_candidates (cfg : Config)
    (jsonEp : String → Except String JsonPayload) (ttlEp : String → Except String String)
    (cands : List String) (uq : String) :
    (executeSparqlBatch cfg jsonEp ttlEp cands uq).map QueryEvidence.query = cands
    ∧ (executeSparqlBatch cfg jsonEp ttlEp cands uq).length = cands.length := by
  have h : (executeSparqlBatch cfg jsonEp ttlEp cands uq).map QueryEvidence.query = cands :=
    executeSparqlBatchTrace_map_query cfg jsonEp ttlEp cands uq
  exact ⟨h, by simpa using congrArg List.length h⟩

/-- Claim C4: every evidence record `execute_sparql_batch` produces with a
non-null `error` has `score = 0` and an empty `preview`. -/
theorem C4_error_implies_zero_score (cfg : Config)
    (jsonEp : String → Except String JsonPayload) (ttlEp : String → Except String String)
    (cands : List String) (uq : String) :
    ∀ ev ∈ executeSparqlBatch cfg jsonEp ttlEp cands uq,
      ev.error ≠ none → ev.score = 0 ∧ ev.preview = "" := by
  induction cands with
  | nil => intro ev hev; simp [executeSparqlBatch, executeSparqlBatchTrace] at hev
  | cons q rest ih =>
    intro ev hev herr
    simp only [executeSparqlBatch, executeSparqlBatchTrace, List.mem_cons] at hev
    rcases hev with hev | hev
    · subst hev
      exact executeCandidate_error_inv cfg jsonEp ttlEp uq q herr
    · exact ih ev hev herr

/-- Claim C2: a candidate that fails validation is recorded as a
`QueryEvidence` with the validator's reason, empty preview and score 0,
and is not sent to the endpoint; consequently every query in the
endpoint-call trace passes all validator rules. -/
theorem C2_rejected_is_zero_evidence (cfg : Config)
    (jsonEp : String → Except String JsonPayload) (ttlEp : String → Except String String)
    (cands : List String) (uq : String) :
    (∀ q ∈ cands, ∀ r, (validateQuery cfg q (some (queryType q))).2 = some r →
      (⟨q, queryType q, "", 0, some r⟩ : QueryEvidence)
          ∈ (executeSparqlBatchTrace cfg jsonEp ttlEp cands uq).1
        ∧ q ∉ (executeSparqlBatchTrace cfg jsonEp ttlEp cands uq).2)
    ∧ ∀ p ∈ (executeSparqlBatchTrace cfg jsonEp ttlEp cands uq).2,
        validateQuery cfg p (some (queryType p)) = (true, none) := by
  refine ⟨?_, executeSparqlBatchTrace_trace_valid cfg jsonEp ttlEp cands uq⟩
  intro q hq r hr
  have hfail := validateQuery_fail_of_reason cfg q (some (queryType q)) r hr
  have hmemRec := executeSparqlBatchTrace_mem_rejected cfg jsonEp ttlEp cands uq q hq hfail
  rw [hr] at hmemRec
  refine ⟨hmemRec, fun hmem => ?_⟩
  have hval := executeSparqlBatchTrace_trace_valid cfg jsonEp ttlEp cands uq q hmem
  rw [hval] at hr
  simp at hr

/-- Claim C9, counterexample: with `allow_describe=false` a `DESCRIBE`
candidate is indeed rejected, but the reason string the code builds is
`"Only ASK, CONSTRUCT, SELECT are allowed"` (capital `Only`, sorted
order), not the claimed `"only SELECT, ASK, CONSTRUCT are allowed"`. -/
theorem C9_counterexample :
    (validateQuery cfgDefault "DESCRIBE <http://example.org/x>" none).2
        = some "Only ASK, CONSTRUCT, SELECT are allowed"
    ∧ (some "Only ASK, CONSTRUCT, SELECT are allowed" : Option String)
        ≠ some "only SELECT, ASK, CONSTRUCT are allowed" := by
  decide

/-- Claim C9 (amended): when `allow_describe` is false, every candidate of
length within `max_query_chars` whose first non-whitespace keyword is
`DESCRIBE` is rejected by the validator with the reason string
`"Only ASK, CONSTRUCT, SELECT are allowed"` (an over-long candidate is
rejected earlier with the length reason instead). -/
theorem C9_describe_rejected (cfg : Config) (q : String)
    (hd : cfg.allow_describe = false) (ht : queryType q = "DESCRIBE")
    (hl : q.length ≤ cfg.max_query_chars) :
    validateQuery cfg q none = (false, some "Only ASK, CONSTRUCT, SELECT are allowed") := by
  have h1 : ¬ q.length > cfg.max_query_chars := Nat.not_lt.mpr hl
  have h2 : effectiveQueryType q none ∉ allowedTypes cfg := by
    simp [effectiveQueryType, allowedTypes, ht, hd]
  have h3 : sortStrings (allowedTypes cfg) = ["ASK", "CONSTRUCT", "SELECT"] := by
    rw [allowedTypes, hd]
    decide
  simp only [validateQuery, if_neg h1, if_pos h2, h3]
  decide

/-- Witness for the amended claim C9 at a concrete configuration and
candidate. -/
theorem C9_describe_rejected_witness :
    validateQuery cfgDefault "DESCRIBE <http://example.org/x>" none
      = (false, some "Only ASK, CONSTRUCT, SELECT are allowed") :=
  C9_describe_rejected cfgDefault "DESCRIBE <http://example.org/x>" rfl (by decide) (by decide)

/-- Claim C5: whenever the planner call times out, raises, or yields no
parsable queries, `generate_sparql_candidates` returns exactly the one
fallback candidate built from the escaped user question when the
iteration index is 1, and the empty list otherwise. -/
theorem C5_planner_fallback (cfg : Config) (extract : String → List String)
    (outcome : PlannerOutcome) (uq : String) (iteration : Nat)
    (h : outcome = PlannerOutcome.timeout ∨ outcome = PlannerOutcome.failure ∨
      ∃ content, outcome = PlannerOutcome.response content ∧ extract content = []) :
    generateSparqlCandidates cfg extract outcome uq iteration
      = if iteration = 1 then
          ["SELECT ?s ?p ?o WHERE \x7b ?s ?p ?o . FILTER(CONTAINS(LCASE(STR(?s)), LCASE(\x27"
            ++ escapeLiteral uq ++ "\x27)) || CONTAINS(LCASE(STR(?o)), LCASE(\x27" ++ escapeLiteral uq
            ++ "\x27))) \x7d LIMIT " ++ toString cfg.max_rows]
        else [] := by
  rcases h with h | h | ⟨content, h, he⟩ <;> subst h
  · rfl
  · rfl
  · simp [generateSparqlCandidates, he, fallbackQuery]

/-- Witness for claim C5: a timed-out planner call on iteration 1 with a
concrete question. -/
theorem C5_planner_fallback_witness :
    generateSparqlCandidates cfgDefault (fun _ => []) PlannerOutcome.timeout "abc" 1
      = ["SELECT ?s ?p ?o WHERE \x7b ?s ?p ?o . FILTER(CONTAINS(LCASE(STR(?s)), LCASE(\x27abc\x27)) || CONTAINS(LCASE(STR(?o)), LCASE(\x27abc\x27))) \x7d LIMIT 50"] := by
  rw [C5_planner_fallback cfgDefault (fun _ => []) PlannerOutcome.timeout "abc" 1 (Or.inl rfl)]
  decide

/-- Claim C6, counterexample: a payload that carries a `boolean` field
*and* non-empty bindings is scored through the bindings path, not the ASK
path — `_score_json_payload` checks `not bindings and "boolean" in
payload`, so the claim's "every payload with a boolean field" is too
strong. -/
theorem C6_counterexample :
    (⟨some true, [[("s", "x")]], none⟩ : JsonPayload).boolean = some true
    ∧ (scoreJsonPayload cfgDefault ⟨some true, [[("s", "x")]], none⟩ "").1
        ≠ "ASK result: True" := by
  decide

/-- Claim C6 (amended): for every JSON payload that has a `boolean` field
and an empty bindings list, the scorer returns preview
`"ASK result: True"` with score 1.0 when the boolean is true, and
`"ASK result: False"` with score 0.2 when it is false. -/
theorem C6_ask_scoring (cfg : Config) (payload : JsonPayload) (uq : String) (b : Bool)
    (hb : payload.bindings = []) (hbool : payload.boolean = some b) :
    scoreJsonPayload cfg payload uq
      = if b then ("ASK result: True", (1 : ℚ)) else ("ASK result: False", 1 / 5) := by
  cases b <;> simp [scoreJsonPayload, hb, hbool]

/-- Witness for the amended claim C6 at concrete payloads. -/
theorem C6_ask_scoring_witness :
    scoreJsonPayload cfgDefault ⟨some true, [], none⟩ "" = ("ASK result: True", (1 : ℚ))
    ∧ scoreJsonPayload cfgDefault ⟨some false, [], none⟩ "" = ("ASK result: False", 1 / 5) := by
  constructor
  · rw [C6_ask_scoring cfgDefault ⟨some true, [], none⟩ "" true rfl rfl]
    rfl
  · rw [C6_ask_scoring cfgDefault ⟨some false, [], none⟩ "" false rfl rfl]
    rfl

/-- Claim C8, counterexample: when the first `process` call's metadata
fetch raises, the synthesized warning JSON is returned but *not* cached,
so a second call whose fetch succeeds returns a different
`schema_metadata` string — the two sequential calls are not
byte-identical. -/
theorem C8_counterexample :
    (loadSchemaMetadata cfgDefault (.error "endpoint down") (.ok ⟨none, [], none⟩) none).1
      ≠ (loadSchemaMetadata cfgDefault (.ok ⟨none, [], none⟩) (.ok ⟨none, [], none⟩)
          (loadSchemaMetadata cfgDefault (.error "endpoint down") (.ok ⟨none, [], none⟩) none).2).1 := by
  decide

/-- Claim C8 (amended): provided the first call's two metadata SELECTs
succeed (so the cache is populated), the second `process` call returns the
byte-identical `schema_metadata` string and leaves the cache unchanged,
and every later `get_schema_metadata` call — whatever its fetches would
return — yields the cached value unchanged. -/
theorem C8_schema_cache_idempotent (cfg : Config) (c1 p1 : JsonPayload)
    (f2c f2p fc fp : Except String JsonPayload) :
    (loadSchemaMetadata cfg f2c f2p (loadSchemaMetadata cfg (.ok c1) (.ok p1) none).2).1
        = (loadSchemaMetadata cfg (.ok c1) (.ok p1) none).1
    ∧ (loadSchemaMetadata cfg f2c f2p (loadSchemaMetadata cfg (.ok c1) (.ok p1) none).2).2
        = (loadSchemaMetadata cfg (.ok c1) (.ok p1) none).2
    ∧ getSchemaMetadata cfg fc fp (loadSchemaMetadata cfg (.ok c1) (.ok p1) none).2
        = .ok ((loadSchemaMetadata cfg (.ok c1) (.ok p1) none).1,
               (loadSchemaMetadata cfg (.ok c1) (.ok p1) none).2) :=
  ⟨rfl, rfl, rfl⟩

theorem dedupStep_seen_mono (acc : List String × List String) (x : String) :
    ∀ s ∈ acc.2, s ∈ (dedupStep acc x).2 := by
  intro s hs
  by_cases h : normalizeQuery x ∈ acc.2
  · simpa only [dedupStep, if_pos h] using hs
  · simp only [dedupStep, if_neg h]
    exact List.mem_cons_of_mem _ hs

theorem dedupStep_mem_seen (acc : List String × List String)
    (hacc : ∀ q ∈ acc.1, normalizeQuery q ∈ acc.2) (x : String) :
    ∀ q ∈ (dedupStep acc x).1, normalizeQuery q ∈ (dedupStep acc x).2 := by
  intro q hq
  by_cases h : normalizeQuery x ∈ acc.2
  · simp only [dedupStep, if_pos h] at hq ⊢
    exact hacc q hq
  · simp only [dedupStep, if_neg h] at hq ⊢
    rcases List.mem_append.1 hq with hq | hq
    · exact List.mem_cons_of_mem _ (hacc q hq)
    · simp only [List.mem_singleton] at hq
      subst hq
      exact List.mem_cons_self _ _

theorem dedupStep_fresh (acc : List String × List String) (x : String) :
    ∀ q ∈ (dedupStep acc x).1, q ∈ acc.1 ∨ normalizeQuery q ∉ acc.2 := by
  intro q hq
  by_cases h : normalizeQuery x ∈ acc.2
  · simp only [dedupStep, if_pos h] at hq
    exact Or.inl hq
  · simp only [dedupStep, if_neg h] at hq
    rcases List.mem_append.1 hq with hq | hq
    · exact Or.inl hq
    · simp only [List.mem_singleton] at hq
      subst hq
      exact Or.inr h

theorem dedupStep_pairwise (acc : List String × List String) (x : String)
    (hacc : ∀ q ∈ acc.1, normalizeQuery q ∈ acc.2)
    (hpw : acc.1.Pairwise fun a b => normalizeQuery a ≠ normalizeQuery b) :
    (dedupStep acc x).1.Pairwise fun a b => normalizeQuery a ≠ normalizeQuery b := by
  by_cases h : normalizeQuery x ∈ acc.2
  · simpa only [dedupStep, if_pos h] using hpw
  · simp only [dedupStep, if_neg h]
    rw [List.pairwise_append]
    refine ⟨hpw, List.pairwise_singleton _ _, ?_⟩
    intro a ha b hb
    simp only [List.mem_singleton] at hb
    subst hb
    intro heq
    exact h (heq ▸ hacc a ha)

theorem dedup_foldl_seen_mono (l : List String) :
    ∀ acc, ∀ s ∈ acc.2, s ∈ (l.foldl dedupStep acc).2 := by
  induction l with
  | nil => intro acc s hs; exact hs
  | cons x rest ih =>
    intro acc s hs
    rw [List.foldl_cons]
    exact ih _ s (dedupStep_seen_mono acc x s hs)

theorem dedup_foldl_mem_seen (l : List String) :
    ∀ acc, (∀ q ∈ acc.1, normalizeQuery q ∈ acc.2) →
      ∀ q ∈ (l.foldl dedupStep acc).1, normalizeQuery q ∈ (l.foldl dedupStep acc).2 := by
  induction l with
  | nil => intro acc hacc; exact hacc
  | cons x rest ih =>
    intro acc hacc
    rw [List.foldl_cons]
    exact ih _ (dedupStep_mem_seen acc hacc x)

theorem dedup_foldl_fresh (l : List String) :
    ∀ acc, ∀ q ∈ (l.foldl dedupStep acc).1, q ∈ acc.1 ∨ normalizeQuery q ∉ acc.2 := by
  induction l with
  | nil => intro acc q hq; exact Or.inl hq
  | cons x rest ih =>
    intro acc q hq
    rw [List.foldl_cons] at hq
    rcases ih _ q hq with h | h
    · exact dedupStep_fresh acc x q h
    · exact Or.inr fun hmem => h (dedupStep_seen_mono acc x _ hmem)

theorem dedup_foldl_pairwise (l : List String) :
    ∀ acc, (∀ q ∈ acc.1, normalizeQuery q ∈ acc.2) →
      acc.1.Pairwise (fun a b => normalizeQuery a ≠ normalizeQuery b) →
      (l.foldl dedupStep acc).1.Pairwise (fun a b => normalizeQuery a ≠ normalizeQuery b) := by
  induction l with
  | nil => intro acc _ hpw; exact hpw
  | cons x rest ih =>
    intro acc hacc hpw
    rw [List.foldl_cons]
    exact ih _ (dedupStep_mem_seen acc hacc x) (dedupStep_pairwise acc x hacc hpw)

theorem plan_mem_seen (seen planner lexical : List String) :
    ∀ q ∈ (planIterationCandidates seen planner lexical).1,
      normalizeQuery q ∈ (planIterationCandidates seen planner lexical).2 :=
  dedup_foldl_mem_seen lexical _
    (dedup_foldl_mem_seen planner ([], seen) (by intro q hq; simp at hq))

theorem plan_seen_mono (seen planner lexical : List String) :
    ∀ s ∈ seen, s ∈ (planIterationCandidates seen planner lexical).2 :=
  fun s hs =>
    dedup_foldl_seen_mono lexical _ s (dedup_foldl_seen_mono planner ([], seen) s hs)

theorem plan_fresh (seen planner lexical : List String) :
    ∀ q ∈ (planIterationCandidates seen planner lexical).1, normalizeQuery q ∉ seen := by
  intro q hq
  rcases dedup_foldl_fresh lexical _ q hq with h | h
  · rcases dedup_foldl_fresh planner ([], seen) q h with h2 | h2
    · simp at h2
    · exact h2
  · exact fun hmem => h (dedup_foldl_seen_mono planner ([], seen) _ hmem)

theorem plan_pairwise (seen planner lexical : List String) :
    (planIterationCandidates seen planner lexical).1.Pairwise
      (fun a b => normalizeQuery a ≠ normalizeQuery b) :=
  dedup_foldl_pairwise lexical _
    (dedup_foldl_mem_seen planner ([], seen) (by intro q hq; simp at hq))
    (dedup_foldl_pairwise planner ([], seen) (by intro q hq; simp at hq) List.Pairwise.nil)

theorem processCandidates_join (its : List IterInput) :
    ∀ seen,
      ((processCandidates seen its).flatten.Pairwise
        fun a b => normalizeQuery a ≠ normalizeQuery b)
      ∧ ∀ q ∈ (processCandidates seen its).flatten, normalizeQuery q ∉ seen := by
  induction its with
  | nil => intro seen; simp [processCandidates]
  | cons it rest ih =>
    intro seen
    by_cases hmr : (planIterationCandidates seen it.planner it.lexical).1.isEmpty
    · simp [processCandidates, hmr]
    · simp only [processCandidates, if_neg hmr, List.flatten_cons]
      constructor
      · rw [List.pairwise_append]
        refine ⟨plan_pairwise seen it.planner it.lexical, (ih _).1, ?_⟩
        intro a ha b hb
        have h1 := plan_mem_seen seen it.planner it.lexical a ha
        have h2 := (ih ((planIterationCandidates seen it.planner it.lexical).2)).2 b hb
        exact fun heq => h2 (heq ▸ h1)
      · intro q hq
        rcases List.mem_append.1 hq with hq | hq
        · exact plan_fresh seen it.planner it.lexical q hq
        · exact fun hmem =>
            (ih _).2 q hq (plan_seen_mono seen it.planner it.lexical _ hmem)

/-- Claim C3: across all iterations of one `process` call, no two executed
candidates are equal under normalization (whitespace collapsed,
lowercased): the batches the loop executes are pairwise distinct under
`_normalize_query`, and a planner or lexical candidate whose normalized
form is already in the seen set is skipped. -/
theorem C3_dedup_across_iterations (its : List IterInput) :
    ((processCandidates [] its).flatten.Pairwise
      fun a b => normalizeQuery a ≠ normalizeQuery b)
    ∧ ∀ seen planner lexical q, normalizeQuery q ∈ seen →
        q ∉ (planIterationCandidates seen planner lexical).1 :=
  ⟨(processCandidates_join its []).1,
   fun seen planner lexical q hmem hq => plan_fresh seen planner lexical q hq hmem⟩

/-- Witness for claim C3: a one-iteration run, and a candidate differing
only in whitespace from a seen query is skipped. -/
theorem C3_dedup_witness :
    ((processCandidates [] [⟨["SELECT 1"], []⟩]).flatten.Pairwise
      fun a b => normalizeQuery a ≠ normalizeQuery b)
    ∧ "SELECT  1" ∉ (planIterationCandidates ["select 1"] ["SELECT  1"] []).1 :=
  ⟨(C3_dedup_across_iterations [⟨["SELECT 1"], []⟩]).1,
   (C3_dedup_across_iterations []).2 ["select 1"] ["SELECT  1"] [] "SELECT  1" (by decide)⟩

theorem scoreConstructPayload_bounds (cfg : Config) (t uq : String) :
    0 ≤ (scoreConstructPayload cfg t uq).2 ∧ (scoreConstructPayload cfg t uq).2 ≤ 1 := by
  simp only [scoreConstructPayload]
  refine ⟨le_min zero_le_one (add_nonneg (div_nonneg (Nat.cast_nonneg _) (Nat.cast_nonneg _))
    (mul_nonneg (Nat.cast_nonneg _) (by norm_num))), min_le_left _ _⟩

theorem scoreJsonPayload_bounds (cfg : Config) (p : JsonPayload) (uq : String)
    (hd : ∀ d, p.describe_score = some d → 0 ≤ d ∧ d ≤ 1) :
    0 ≤ (scoreJsonPayload cfg p uq).2 ∧ (scoreJsonPayload cfg p uq).2 ≤ 1 := by
  simp only [scoreJsonPayload]
  by_cases hask : (p.bindings.isEmpty && p.boolean.isSome) = true
  · rw [if_pos hask]
    cases p.boolean.getD false
    · simp
      norm_num
    · simp
  · rw [if_neg hask]
    cases hds : p.describe_score with
    | none =>
      simp only
      exact ⟨le_min zero_le_one (add_nonneg (div_nonneg (Nat.cast_nonneg _) (Nat.cast_nonneg _))
        (mul_nonneg (Nat.cast_nonneg _) (by norm_num))), min_le_left _ _⟩
    | some d =>
      have hb := hd d hds
      simp only
      constructor
      · exact le_trans (le_min zero_le_one (add_nonneg
          (div_nonneg (Nat.cast_nonneg _) (Nat.cast_nonneg _))
          (mul_nonneg (Nat.cast_nonneg _) (by norm_num)))) (le_max_left _ _)
      · exact max_le (min_le_left _ _) hb.2

theorem runRawJson_describe_bound (cfg : Config)
    (jsonEp : String → Except String JsonPayload) (ttlEp : String → Except String String)
    (q : String)
    (hO : ∀ s pl, jsonEp s = .ok pl → ∀ d, pl.describe_score = some d → 0 ≤ d ∧ d ≤ 1) :
    ∀ pl, runRawJson cfg jsonEp ttlEp q = .ok pl →
      ∀ d, pl.describe_score = some d → 0 ≤ d ∧ d ≤ 1 := by
  intro pl hpl d hd
  by_cases hq : queryType q = "DESCRIBE"
  · rw [runRawJson, if_pos hq] at hpl
    cases htl : ttlEp q with
    | error e => rw [htl] at hpl; simp at hpl
    | ok turtle =>
      rw [htl] at hpl
      simp only [Except.ok.injEq] at hpl
      subst hpl
      simp only [Option.some.injEq] at hd
      subst hd
      exact scoreConstructPayload_bounds cfg turtle ""
  · rw [runRawJson, if_neg hq] at hpl
    exact hO q pl hpl d hd

theorem executeCandidate_score_bounds (cfg : Config)
    (jsonEp : String → Except String JsonPayload) (ttlEp : String → Except String String)
    (uq q : String)
    (hO : ∀ s pl, jsonEp s = .ok pl → ∀ d, pl.describe_score = some d → 0 ≤ d ∧ d ≤ 1) :
    0 ≤ (executeCandidate cfg jsonEp ttlEp uq q).1.score
    ∧ (executeCandidate cfg jsonEp ttlEp uq q).1.score ≤ 1 := by
  unfold executeCandidate
  by_cases hv : (validateQuery cfg q (some (queryType q))).1 = false
  · rw [if_pos hv]
    norm_num
  · rw [if_neg hv]
    by_cases hqt : queryType q = "SELECT" ∨ queryType q = "ASK" ∨ queryType q = "DESCRIBE"
    · rw [if_pos hqt]
      cases hrr : runRawJson cfg jsonEp ttlEp q with
      | error e => simp only [hrr]; norm_num
      | ok payload =>
        simp only [hrr]
        exact scoreJsonPayload_bounds cfg payload uq
          (runRawJson_describe_bound cfg jsonEp ttlEp q hO payload hrr)
    · rw [if_neg hqt]
      cases htl : ttlEp q with
      | error e => simp only [htl]; norm_num
      | ok turtle =>
        simp only [htl]
        exact scoreConstructPayload_bounds cfg turtle uq

/-- Claim C7: the scorer's result is always in `[0, 1]` — for JSON payloads
whose `_describe_score` (when present) is itself in `[0, 1]`, as holds for
every payload the driver builds — and for Turtle payloads; hence every
evidence record `execute_sparql_batch` produces has `score ∈ [0, 1]`. -/
theorem C7_scores_in_unit_interval (cfg : Config) (payload : JsonPayload)
    (uq turtle : String) (jsonEp : String → Except String JsonPayload)
    (ttlEp : String → Except String String) (cands : List String)
    (hp : ∀ d, payload.describe_score = some d → 0 ≤ d ∧ d ≤ 1)
    (hO : ∀ s pl, jsonEp s = .ok pl → ∀ d, pl.describe_score = some d → 0 ≤ d ∧ d ≤ 1) :
    (0 ≤ (scoreJsonPayload cfg payload uq).2 ∧ (scoreJsonPayload cfg payload uq).2 ≤ 1)
    ∧ (0 ≤ (scoreConstructPayload cfg turtle uq).2
        ∧ (scoreConstructPayload cfg turtle uq).2 ≤ 1)
    ∧ ∀ ev ∈ executeSparqlBatch cfg jsonEp ttlEp cands uq, 0 ≤ ev.score ∧ ev.score ≤ 1 := by
  refine ⟨scoreJsonPayload_bounds cfg payload uq hp,
    scoreConstructPayload_bounds cfg turtle uq, ?_⟩
  induction cands with
  | nil => intro ev hev; simp [executeSparqlBatch, executeSparqlBatchTrace] at hev
  | cons q rest ih =>
    intro ev hev
    simp only [executeSparqlBatch, executeSparqlBatchTrace, List.mem_cons] at hev
    rcases hev with hev | hev
    · subst hev
      exact executeCandidate_score_bounds cfg jsonEp ttlEp uq q hO
    · exact ih ev hev

/-- Witness for claim C7 at concrete payloads, endpoint oracles and a
one-candidate batch. -/
theorem C7_witness :
    (0 ≤ (scoreJsonPayload cfgDefault ⟨some true, [], none⟩ "q").2
      ∧ (scoreJsonPayload cfgDefault ⟨some true, [], none⟩ "q").2 ≤ 1)
    ∧ (0 ≤ (scoreConstructPayload cfgDefault "<a> <b> <c> ." "q").2
      ∧ (scoreConstructPayload cfgDefault "<a> <b> <c> ." "q").2 ≤ 1)
    ∧ ∀ ev ∈ executeSparqlBatch cfgDefault jsonEpDown ttlEpDown
        ["ASK WHERE \x7b ?s ?p ?o \x7d"] "q", 0 ≤ ev.score ∧ ev.score ≤ 1 :=
  C7_scores_in_unit_interval cfgDefault ⟨some true, [], none⟩ "q" "<a> <b> <c> ."
    jsonEpDown ttlEpDown ["ASK WHERE \x7b ?s ?p ?o \x7d"]
    (by intro d h; simp at h)
    (by intro s pl h; simp [jsonEpDown] at h)

/-- Witness for claim C2: a candidate with an unknown leading keyword is
recorded as rejected evidence and never sent to the endpoint. -/
theorem C2_witness :
    (⟨"DROP X", "UNKNOWN", "", 0, some "Only ASK, CONSTRUCT, SELECT are allowed"⟩ : QueryEvidence)
        ∈ (executeSparqlBatchTrace cfgDefault jsonEpDown ttlEpDown ["DROP X"] "q").1
    ∧ "DROP X" ∉ (executeSparqlBatchTrace cfgDefault jsonEpDown ttlEpDown ["DROP X"] "q").2 :=
  (C2_rejected_is_zero_evidence cfgDefault jsonEpDown ttlEpDown ["DROP X"] "q").1 "DROP X"
    (by decide) "Only ASK, CONSTRUCT, SELECT are allowed" (by decide)

/-- Witness for claim C4 on the evidence record of a rejected candidate. -/
theorem C4_witness :
    (⟨"x", "UNKNOWN", "", 0, some "Only ASK, CONSTRUCT, SELECT are allowed"⟩ : QueryEvidence).score = 0
    ∧ (⟨"x", "UNKNOWN", "", 0, some "Only ASK, CONSTRUCT, SELECT are allowed"⟩ : QueryEvidence).preview = "" :=
  C4_error_implies_zero_score cfgDefault jsonEpDown ttlEpDown ["x"] "q"
    ⟨"x", "UNKNOWN", "", 0, some "Only ASK, CONSTRUCT, SELECT are allowed"⟩
    (by decide) (by decide)

end SelfQuery
